import Mathlib

/-!
Shallow embedding of the job-orchestration HTTP relay (`src/server.js`, the
background-task variant at lines 88-341, which `src/unnamed/part_002` and
`src/unnamed/part_003` repeat verbatim in the relevant parts), together with the
chat-id extraction of the single-shot variant `src/unnamed/part_000`.

Modelling conventions:
- Possibly-absent JSON string values are `Option String`; JavaScript truthiness on
  them (`undefined`/`null`/`""` falsy) is `truthy`, and `a || b` is `jsOr`.
- A collaborator call that may throw is an `Except String _` oracle carried in `Env`;
  the background task is a pure function of the request, the oracle and the initial
  record, returning the sequence of job-record states visible in the store (one per
  store-visible mutation) and the list of external calls made, in order.
- The job store is an association list `List (String × Job)`.
-/

namespace AiSitePipeline

/-- JavaScript truthiness of a possibly-absent string value:
`undefined`, `null` and `""` are falsy, every other string is truthy. -/
def truthy : Option String → Bool
  | none => false
  | some s => !(s == "")

/-- JavaScript `a || b` on possibly-absent string values. -/
def jsOr (a b : Option String) : Option String :=
  if truthy a then a else b

/-- JavaScript `a || b` on definite strings (only `""` is falsy). -/
def jsOrStr (a b : String) : String :=
  if a == "" then b else a

/-- JavaScript `String.prototype.trim`: strip leading and trailing whitespace. -/
def jsTrim (s : String) : String :=
  ⟨((s.data.dropWhile Char.isWhitespace).reverse.dropWhile Char.isWhitespace).reverse⟩

/-- Boolean prefix test on char lists (JavaScript `String.prototype.startsWith`). -/
def isPrefixB : List Char → List Char → Bool
  | [], _ => true
  | _ :: _, [] => false
  | a :: as, b :: bs => a == b && isPrefixB as bs

/-- The status strings a job record can hold. -/
inductive Status
  | queued
  | running
  | done
  | error
deriving DecidableEq, Repr

/-- The job record stored in the in-memory `jobs` map (server.js:227-235):
`{status, job_id, row_id, chat_id, site_url, image_urls, error}`. -/
structure Job where
  status : Status
  job_id : String
  row_id : String
  chat_id : String
  site_url : Option String
  image_urls : Option (String × String)
  error : Option String
deriving DecidableEq, Repr

/-- The JSON body of a `POST /jobs` request; absent fields are `none`.
(Field values are modelled as strings, the only case the code is written for.) -/
structure ReqBody where
  row_id : Option String
  prompt : Option String
  callback_url : Option String
  chat_id : Option String
  site_name : Option String
  business_type : Option String
  location : Option String
deriving DecidableEq, Repr

/-- The shape of a v0 chats response, with every historically-seen field optional.
`outputDemo` models `chat?.output?.demo` (src/unnamed/part_000:76). -/
structure ChatResponse where
  id : Option String
  chatId : Option String
  chat_id : Option String
  demo : Option String
  webUrl : Option String
  url : Option String
  outputDemo : Option String
deriving DecidableEq, Repr

/-- One entry of `result.files` from a `generateText` call (server.js:172-175):
its media type, whether it carries a `uint8Array`, and the base64 rendering of
that array. -/
structure GenFile where
  mediaType : Option String
  hasUint8Array : Bool
  base64 : String
deriving DecidableEq, Repr

/-- The result object of a successful `generateText` call; `files` is absent or a
list (server.js:173 reads `result.files || []`). -/
structure GenTextResult where
  files : Option (List GenFile)
deriving DecidableEq, Repr

/-- The JSON payload POSTed to the caller's callback URL
(server.js:291-300 and 307-316). -/
structure CallbackPayload where
  row_id : String
  job_id : String
  status : Status
  chat_id : String
  site_url : Option String
  hero_image_url : Option String
  contact_image_url : Option String
  error : Option String
deriving DecidableEq, Repr

/-- The external calls a background task makes, in order. `delivered` on a
callback records whether the `fetch` to the callback URL succeeded; `postCallback`
(server.js:124-134) swallows the failure, so it can appear only here, never in the
job record. -/
inductive ExtCall
  | genText (prompt : String)
  | sendMessage (chatId message : String)
  | create (message : String)
  | callback (url : String) (payload : CallbackPayload) (delivered : Bool)
deriving DecidableEq, Repr

/-- Oracle for the outcomes of one job's collaborator calls: `heroGen` and
`contactGen` are the results of the first and second `generateText` calls
(`Except.error` models a throw), `siteResp` the result of the single v0
`chats.sendMessage`/`chats.create` call (the response object may be nullish),
and `callbackOk` whether the callback `fetch` succeeds. -/
structure Env where
  gatewayKey : String
  heroGen : Except String GenTextResult
  contactGen : Except String GenTextResult
  siteResp : Except String (Option ChatResponse)
  callbackOk : Bool

/-- The predicate selecting an image file in `result.files` (server.js:173-175):
`(f?.mediaType || "").startsWith("image/") && f?.uint8Array`. -/
def isImageFile (f : GenFile) : Bool :=
  isPrefixB "image/".data (f.mediaType.getD "").data && f.hasUint8Array

/-- `genOneNanoBananaImage` (server.js:164-184): the returned data URL or the
thrown message, together with the `generateText` calls issued (none when the
gateway key check throws before the call). -/
def genOneNanoBananaImage (gatewayKey prompt : String)
    (gen : Except String GenTextResult) : Except String String × List ExtCall :=
  if gatewayKey == "" then
    (.error "AI_GATEWAY_API_KEY not set on server", [])
  else
    match gen with
    | .error e => (.error e, [.genText prompt])
    | .ok r =>
      match (r.files.getD []).find? isImageFile with
      | none => (.error "No image returned in result.files", [.genText prompt])
      | some f =>
        (.ok ("data:" ++ f.mediaType.getD "" ++ ";base64," ++ f.base64),
         [.genText prompt])

/-- The hero-image prompt (server.js:187-191). -/
def heroPrompt (businessName businessType location : String) : String :=
  "Photorealistic hero image for a local service business website. " ++
  "Business: " ++ jsOrStr businessName "Local Services" ++ ". Type: " ++
  jsOrStr businessType "services" ++ ". " ++
  "Location: " ++ jsOrStr location "Quebec" ++
  ". Clean, modern, professional, natural lighting. " ++
  "No text, no logos, no watermarks."

/-- The contact-image prompt (server.js:193-197). -/
def contactPrompt (businessName businessType location : String) : String :=
  "Photorealistic image for the contact section of a local services website. " ++
  "Business: " ++ jsOrStr businessName "Local Services" ++ ". Type: " ++
  jsOrStr businessType "services" ++ ". " ++
  "Location: " ++ jsOrStr location "Quebec" ++
  ". Friendly, trustworthy, professional. " ++
  "No text, no logos, no watermarks."

/-- `generateImages` (server.js:186-203): two sequential image generations; a
failure of the first aborts before the second call is made. -/
def generateImages (env : Env) (businessName businessType location : String) :
    Except String (String × String) × List ExtCall :=
  let hero := genOneNanoBananaImage env.gatewayKey
    (heroPrompt businessName businessType location) env.heroGen
  match hero.1 with
  | .error e => (.error e, hero.2)
  | .ok heroUrl =>
    let contact := genOneNanoBananaImage env.gatewayKey
      (contactPrompt businessName businessType location) env.contactGen
    match contact.1 with
    | .error e => (.error e, hero.2 ++ contact.2)
    | .ok contactUrl => (.ok (heroUrl, contactUrl), hero.2 ++ contact.2)

/-- The literal text of `imageInstruction` up to the hero URL (server.js:258-259). -/
def imageInstrPre : String :=
  "IMPORTANT: Use these exact image URLs in the page.\n- Hero image URL: "

/-- The literal text of `imageInstruction` between the two URLs (server.js:259-260). -/
def imageInstrMid : String :=
  "\n- Contact image URL: "

/-- The literal text of `imageInstruction` after the contact URL (server.js:260-261). -/
def imageInstrEnd : String :=
  "\nDo not use placeholders. Do not generate additional images.\n"

/-- `imageInstruction` (server.js:257-261), with its literal parts named so that the
URL positions are visible; concatenated it is character-for-character the template
of the source. -/
def imageInstruction (heroUrl contactUrl : String) : String :=
  imageInstrPre ++ heroUrl ++ imageInstrMid ++ contactUrl ++ imageInstrEnd

/-- `finalPrompt` (server.js:263): the caller's prompt, a blank line, and the image
instruction block. -/
def finalPrompt (prompt heroUrl contactUrl : String) : String :=
  prompt ++ "\n\n" ++ imageInstruction heroUrl contactUrl

/-- The chat-id extraction of the background task (server.js:279):
`chat?.id || incomingChatId || ""`. -/
def extractChatId (chat : Option ChatResponse) (incomingChatId : String) : String :=
  (jsOr (jsOr (chat.bind ChatResponse.id) (some incomingChatId)) (some "")).getD ""

/-- The site-url extraction of the background task (server.js:280):
`chat?.demo || chat?.webUrl || chat?.url || null`. -/
def extractSiteUrl (chat : Option ChatResponse) : Option String :=
  jsOr (jsOr (jsOr (chat.bind ChatResponse.demo) (chat.bind ChatResponse.webUrl))
    (chat.bind ChatResponse.url)) none

/-- `returnedChatId` of the single-shot variant (src/unnamed/part_000:69-70):
`chat?.id || chat?.chatId || chat?.chat_id || chat_id || null`. -/
def returnedChatIdV0 (chat : Option ChatResponse) (chat_id : Option String) :
    Option String :=
  jsOr (jsOr (jsOr (jsOr (chat.bind ChatResponse.id) (chat.bind ChatResponse.chatId))
    (chat.bind ChatResponse.chat_id)) chat_id) none

/-- The record written by the catch block of the background task (server.js:303-305):
the running record with status `error` and the thrown message stored. -/
def errRecord (running : Job) (msg : String) : Job :=
  { running with status := .error, error := some msg }

/-- The payload of the error callback (server.js:307-316); `job.chat_id || ""` where
`job.chat_id` is unchanged by the catch block, hence the running record's value. -/
def errPayload (running : Job) (row_id job_id msg : String) : CallbackPayload :=
  { row_id := row_id
    job_id := job_id
    status := .error
    chat_id := jsOrStr running.chat_id ""
    site_url := none
    hero_image_url := none
    contact_image_url := none
    error := some msg }

/-- The single site-generation call the background task issues (server.js:266-277):
`chats.sendMessage` scoped to the trimmed incoming chat_id when that is non-empty,
otherwise `chats.create`; either way with the constructed final prompt. -/
def siteCall (req : ReqBody) (heroUrl contactUrl : String) : ExtCall :=
  if jsTrim (req.chat_id.getD "") == "" then
    .create (finalPrompt (req.prompt.getD "") heroUrl contactUrl)
  else
    .sendMessage (jsTrim (req.chat_id.getD ""))
      (finalPrompt (req.prompt.getD "") heroUrl contactUrl)

/-- The record written by the done branch (server.js:284-289). -/
def doneRecord (running : Job) (cid u heroUrl contactUrl : String) : Job :=
  { running with
      status := .done
      chat_id := cid
      site_url := some u
      image_urls := some (heroUrl, contactUrl)
      error := none }

/-- The payload of the done callback (server.js:291-300). -/
def donePayload (row_id job_id cid u heroUrl contactUrl : String) : CallbackPayload :=
  { row_id := row_id
    job_id := job_id
    status := .done
    chat_id := cid
    site_url := some u
    hero_image_url := some heroUrl
    contact_image_url := some contactUrl
    error := none }

/-- The record after `job.status = "running"; jobs.set(job_id, job)` (server.js:245-246). -/
def runningJob (j0 : Job) : Job :=
  { j0 with status := .running }

/-- The image step of one task: `generateImages` applied to the caller-supplied
business name, type and location with their `|| ""` defaults (server.js:250-254). -/
def imgStep (req : ReqBody) (env : Env) : Except String (String × String) × List ExtCall :=
  generateImages env (req.site_name.getD "") (req.business_type.getD "")
    (req.location.getD "")

/-- One background task (server.js:241-318) for the record `j0` just inserted under
`job_id`. Returns every state of this job's record visible in the store after the
initial insert (the `running` write, then the terminal write), and the external
calls made, in order. Between awaits, JavaScript runs the mutation statements
atomically, so these writes are the only observation points. -/
def runJob (req : ReqBody) (job_id : String) (env : Env) (j0 : Job) :
    List Job × List ExtCall :=
  match (imgStep req env).1 with
  | .error msg =>
    ([runningJob j0, errRecord (runningJob j0) msg],
     (imgStep req env).2 ++
       [.callback (req.callback_url.getD "")
          (errPayload (runningJob j0) (req.row_id.getD "") job_id msg)
          env.callbackOk])
  | .ok (heroUrl, contactUrl) =>
    match env.siteResp with
    | .error msg =>
      ([runningJob j0, errRecord (runningJob j0) msg],
       (imgStep req env).2 ++
         [siteCall req heroUrl contactUrl,
          .callback (req.callback_url.getD "")
            (errPayload (runningJob j0) (req.row_id.getD "") job_id msg)
            env.callbackOk])
    | .ok chat =>
      match extractSiteUrl chat with
      | none =>
        ([runningJob j0,
          errRecord (runningJob j0) "v0 did not return a demo/webUrl/url"],
         (imgStep req env).2 ++
           [siteCall req heroUrl contactUrl,
            .callback (req.callback_url.getD "")
              (errPayload (runningJob j0) (req.row_id.getD "") job_id
                "v0 did not return a demo/webUrl/url")
              env.callbackOk])
      | some u =>
        ([runningJob j0,
          doneRecord (runningJob j0)
            (extractChatId chat (jsTrim (req.chat_id.getD ""))) u heroUrl contactUrl],
         (imgStep req env).2 ++
           [siteCall req heroUrl contactUrl,
            .callback (req.callback_url.getD "")
              (donePayload (req.row_id.getD "") job_id
                (extractChatId chat (jsTrim (req.chat_id.getD ""))) u heroUrl contactUrl)
              env.callbackOk])

/-- The `requireApiKey` middleware (server.js:113-118): `some code` rejects the
request with that HTTP status, `none` lets it proceed. -/
def requireApiKey (apiKey provided : String) : Option Nat :=
  if apiKey == "" then some 500
  else if !(provided == apiKey) then some 401
  else none

/-- The observable outcome of one `POST /jobs` request: the immediate HTTP status
code, the job store after the background task finished, every store-visible state
of the new job's record (starting with the `queued` insert; empty when the request
was rejected), and the external calls made. -/
structure PostJobsResult where
  code : Nat
  store : List (String × Job)
  snapshots : List Job
  calls : List ExtCall
deriving Repr

/-- The initial `queued` record inserted for an accepted request (server.js:227-235). -/
def initialJob (req : ReqBody) (job_id : String) : Job :=
  { status := .queued
    job_id := job_id
    row_id := req.row_id.getD ""
    chat_id := req.chat_id.getD ""
    site_url := none
    image_urls := none
    error := none }

/-- `app.post("/jobs", ...)` (server.js:219-318): auth, field validation, server
configuration check, `queued` record insertion, immediate `{status:"queued"}`
response, and the spawned background task. -/
def postJobs (apiKey provided v0Key : String) (req : ReqBody) (env : Env)
    (job_id : String) (store : List (String × Job)) : PostJobsResult :=
  match requireApiKey apiKey provided with
  | some code => ⟨code, store, [], []⟩
  | none =>
    if !(truthy req.row_id && truthy req.prompt && truthy req.callback_url) then
      ⟨400, store, [], []⟩
    else if v0Key == "" then ⟨500, store, [], []⟩
    else
      let j0 := initialJob req job_id
      let r := runJob req job_id env j0
      ⟨200, (job_id, r.1.getLastD j0) :: store, j0 :: r.1, r.2⟩

/-- A job record in a terminal state. -/
def Job.terminal (j : Job) : Prop :=
  j.status = .done ∨ j.status = .error

/-- The status transitions the orchestrator is allowed to perform between two
consecutive store-visible states. -/
def okTransition (a b : Job) : Prop :=
  (a.status = .queued ∧ b.status = .running) ∨
  (a.status = .running ∧ (b.status = .done ∨ b.status = .error))

/-- Calls to the site-generation collaborator. -/
def ExtCall.isSiteCall : ExtCall → Bool
  | .genText _ => false
  | .sendMessage _ _ => true
  | .create _ => true
  | .callback _ _ _ => false

/-- Calls that are `chats.sendMessage` (edit an existing site). -/
def ExtCall.isSend : ExtCall → Bool
  | .genText _ => false
  | .sendMessage _ _ => true
  | .create _ => false
  | .callback _ _ _ => false

/-- Calls that are `chats.create` (create a new site). -/
def ExtCall.isCreate : ExtCall → Bool
  | .genText _ => false
  | .sendMessage _ _ => false
  | .create _ => true
  | .callback _ _ _ => false

/-- Calls that are callback deliveries. -/
def ExtCall.isCallback : ExtCall → Bool
  | .genText _ => false
  | .sendMessage _ _ => false
  | .create _ => false
  | .callback _ _ _ => true

@[simp] theorem isSiteCall_genText (p : String) :
    ExtCall.isSiteCall (.genText p) = false := rfl

@[simp] theorem isSiteCall_sendMessage (a m : String) :
    ExtCall.isSiteCall (.sendMessage a m) = true := rfl

@[simp] theorem isSiteCall_create (m : String) :
    ExtCall.isSiteCall (.create m) = true := rfl

@[simp] theorem isSiteCall_cb (u : String) (pl : CallbackPayload) (d : Bool) :
    ExtCall.isSiteCall (.callback u pl d) = false := rfl

@[simp] theorem isSend_genText (p : String) :
    ExtCall.isSend (.genText p) = false := rfl

@[simp] theorem isSend_sendMessage (a m : String) :
    ExtCall.isSend (.sendMessage a m) = true := rfl

@[simp] theorem isSend_create (m : String) :
    ExtCall.isSend (.create m) = false := rfl

@[simp] theorem isSend_cb (u : String) (pl : CallbackPayload) (d : Bool) :
    ExtCall.isSend (.callback u pl d) = false := rfl

@[simp] theorem isCreate_genText (p : String) :
    ExtCall.isCreate (.genText p) = false := rfl

@[simp] theorem isCreate_sendMessage (a m : String) :
    ExtCall.isCreate (.sendMessage a m) = false := rfl

@[simp] theorem isCreate_create (m : String) :
    ExtCall.isCreate (.create m) = true := rfl

@[simp] theorem isCreate_cb (u : String) (pl : CallbackPayload) (d : Bool) :
    ExtCall.isCreate (.callback u pl d) = false := rfl

@[simp] theorem isCallback_genText (p : String) :
    ExtCall.isCallback (.genText p) = false := rfl

@[simp] theorem isCallback_sendMessage (a m : String) :
    ExtCall.isCallback (.sendMessage a m) = false := rfl

@[simp] theorem isCallback_create (m : String) :
    ExtCall.isCallback (.create m) = false := rfl

@[simp] theorem isCallback_cb (u : String) (pl : CallbackPayload) (d : Bool) :
    ExtCall.isCallback (.callback u pl d) = true := rfl

/-- Erase the recorded delivery outcome of callback calls, for comparing traces
across callback-delivery outcomes. -/
def stripOk : ExtCall → ExtCall
  | .callback u p _ => .callback u p true
  | c => c

/-- A fallback job record for `getLastD` on snapshot lists. -/
def emptyJob : Job :=
  ⟨.queued, "", "", "", none, none, none⟩

/-! ### Concrete sample inputs, used to exercise the embedding -/

/-- A valid creation request, as in the scenarios of the spec (§8). -/
def sampleReq : ReqBody :=
  { row_id := some "r1"
    prompt := some "build a site"
    callback_url := some "https://cb.test/x"
    chat_id := none
    site_name := none
    business_type := none
    location := none }

/-- A `result.files` entry carrying an image. -/
def okFile : GenFile :=
  { mediaType := some "image/png", hasUint8Array := true, base64 := "QQ==" }

/-- A `generateText` result containing one image file. -/
def okGen : GenTextResult := { files := some [okFile] }

/-- A v0 response with an id and a demo URL. -/
def okChat : ChatResponse :=
  { id := some "c1"
    chatId := none
    chat_id := none
    demo := some "https://demo.test/c1"
    webUrl := none
    url := none
    outputDemo := none }

/-- Oracle in which every collaborator call succeeds. -/
def envAllOk : Env :=
  { gatewayKey := "g"
    heroGen := .ok okGen
    contactGen := .ok okGen
    siteResp := .ok (some okChat)
    callbackOk := true }

/-- Oracle in which `generateText` succeeds but returns no image file. -/
def envNoImage : Env :=
  { gatewayKey := "g"
    heroGen := .ok ⟨some []⟩
    contactGen := .ok ⟨some []⟩
    siteResp := .ok none
    callbackOk := true }

/-- Oracle in which images succeed but the v0 response has no extractable URL. -/
def envNoUrl : Env :=
  { gatewayKey := "g"
    heroGen := .ok okGen
    contactGen := .ok okGen
    siteResp := .ok (some { okChat with demo := none })
    callbackOk := true }

/-! ### Basic lemmas about the embedding -/

theorem data_append (a b : String) : (a ++ b).data = a.data ++ b.data := rfl

theorem jsOrStr_empty (x : String) : jsOrStr x "" = x := by
  by_cases h : x = "" <;> simp [jsOrStr, h]

/-- The calls made by one `genOneNanoBananaImage` are all `generateText` calls. -/
theorem genOne_calls_shape (k p : String) (g : Except String GenTextResult) :
    ∃ ps : List String, (genOneNanoBananaImage k p g).2 = ps.map ExtCall.genText := by
  unfold genOneNanoBananaImage
  split
  · exact ⟨[], rfl⟩
  · split
    · exact ⟨[p], rfl⟩
    · split
      · exact ⟨[p], rfl⟩
      · exact ⟨[p], rfl⟩

/-- The calls made by `generateImages` are all `generateText` calls. -/
theorem generateImages_calls_shape (env : Env) (a b c : String) :
    ∃ ps : List String, (generateImages env a b c).2 = ps.map ExtCall.genText := by
  obtain ⟨ps1, h1⟩ := genOne_calls_shape env.gatewayKey (heroPrompt a b c) env.heroGen
  obtain ⟨ps2, h2⟩ := genOne_calls_shape env.gatewayKey (contactPrompt a b c) env.contactGen
  unfold generateImages
  simp only []
  split
  · exact ⟨ps1, h1⟩
  · split
    · exact ⟨ps1 ++ ps2, by rw [List.map_append, h1, h2]⟩
    · exact ⟨ps1 ++ ps2, by rw [List.map_append, h1, h2]⟩

/-- Complete case analysis of one background task: its four terminal branches, each
with the exact snapshot list and call trace. -/
theorem runJob_cases (req : ReqBody) (job_id : String) (env : Env) (j0 : Job) :
    (∃ msg, (imgStep req env).1 = .error msg ∧
      runJob req job_id env j0 =
        ([runningJob j0, errRecord (runningJob j0) msg],
         (imgStep req env).2 ++
           [.callback (req.callback_url.getD "")
              (errPayload (runningJob j0) (req.row_id.getD "") job_id msg)
              env.callbackOk])) ∨
    (∃ hU cU msg, (imgStep req env).1 = .ok (hU, cU) ∧ env.siteResp = .error msg ∧
      runJob req job_id env j0 =
        ([runningJob j0, errRecord (runningJob j0) msg],
         (imgStep req env).2 ++
           [siteCall req hU cU,
            .callback (req.callback_url.getD "")
              (errPayload (runningJob j0) (req.row_id.getD "") job_id msg)
              env.callbackOk])) ∨
    (∃ hU cU chat, (imgStep req env).1 = .ok (hU, cU) ∧ env.siteResp = .ok chat ∧
      extractSiteUrl chat = none ∧
      runJob req job_id env j0 =
        ([runningJob j0,
          errRecord (runningJob j0) "v0 did not return a demo/webUrl/url"],
         (imgStep req env).2 ++
           [siteCall req hU cU,
            .callback (req.callback_url.getD "")
              (errPayload (runningJob j0) (req.row_id.getD "") job_id
                "v0 did not return a demo/webUrl/url")
              env.callbackOk])) ∨
    (∃ hU cU chat u, (imgStep req env).1 = .ok (hU, cU) ∧ env.siteResp = .ok chat ∧
      extractSiteUrl chat = some u ∧
      runJob req job_id env j0 =
        ([runningJob j0,
          doneRecord (runningJob j0)
            (extractChatId chat (jsTrim (req.chat_id.getD ""))) u hU cU],
         (imgStep req env).2 ++
           [siteCall req hU cU,
            .callback (req.callback_url.getD "")
              (donePayload (req.row_id.getD "") job_id
                (extractChatId chat (jsTrim (req.chat_id.getD ""))) u hU cU)
              env.callbackOk])) := by
  rcases himg : (imgStep req env).1 with msg | ⟨hU, cU⟩
  · exact Or.inl ⟨msg, rfl, by unfold runJob; simp only [himg]⟩
  · rcases hsite : env.siteResp with msg | chat
    · exact Or.inr (Or.inl
        ⟨hU, cU, msg, rfl, rfl, by unfold runJob; simp only [himg, hsite]⟩)
    · rcases hurl : extractSiteUrl chat with _ | u
      · exact Or.inr (Or.inr (Or.inl
          ⟨hU, cU, chat, rfl, rfl, hurl, by unfold runJob; simp only [himg, hsite, hurl]⟩))
      · exact Or.inr (Or.inr (Or.inr
          ⟨hU, cU, chat, u, rfl, rfl, hurl,
            by unfold runJob; simp only [himg, hsite, hurl]⟩))

/-- A request the middleware rejects never reaches validation nor the store. -/
theorem postJobs_rejected (apiKey provided v0Key : String) (req : ReqBody) (env : Env)
    (job_id : String) (store : List (String × Job)) (code : Nat)
    (h : requireApiKey apiKey provided = some code) :
    postJobs apiKey provided v0Key req env job_id store = ⟨code, store, [], []⟩ := by
  unfold postJobs; rw [h]

/-- A request failing field validation gets 400 and changes nothing. -/
theorem postJobs_invalid (apiKey provided v0Key : String) (req : ReqBody) (env : Env)
    (job_id : String) (store : List (String × Job))
    (hA : requireApiKey apiKey provided = none)
    (hV : (truthy req.row_id && truthy req.prompt && truthy req.callback_url) = false) :
    postJobs apiKey provided v0Key req env job_id store = ⟨400, store, [], []⟩ := by
  unfold postJobs; rw [hA, hV]; rfl

/-- A valid request on a server without a v0 key gets 500 and changes nothing. -/
theorem postJobs_noV0 (apiKey provided : String) (req : ReqBody) (env : Env)
    (job_id : String) (store : List (String × Job))
    (hA : requireApiKey apiKey provided = none)
    (hV : (truthy req.row_id && truthy req.prompt && truthy req.callback_url) = true) :
    postJobs apiKey provided "" req env job_id store = ⟨500, store, [], []⟩ := by
  unfold postJobs; rw [hA, hV]; rfl

/-- An accepted request: 200, the queued record inserted, the background task run. -/
theorem postJobs_accepted (apiKey provided v0Key : String) (req : ReqBody) (env : Env)
    (job_id : String) (store : List (String × Job))
    (hA : requireApiKey apiKey provided = none)
    (hV : (truthy req.row_id && truthy req.prompt && truthy req.callback_url) = true)
    (hK : v0Key ≠ "") :
    postJobs apiKey provided v0Key req env job_id store =
      ⟨200,
       (job_id, (runJob req job_id env (initialJob req job_id)).1.getLastD
          (initialJob req job_id)) :: store,
       initialJob req job_id :: (runJob req job_id env (initialJob req job_id)).1,
       (runJob req job_id env (initialJob req job_id)).2⟩ := by
  have hK' : (v0Key == "") = false := beq_eq_false_iff_ne.mpr hK
  unfold postJobs; rw [hA, hV, hK']; rfl

/-- The snapshot list of a `POST /jobs` request is empty (rejected request), or
queued/running/error, or queued/running/done with the extracted chat id and URL. -/
theorem snapshots_cases (apiKey provided v0Key : String) (req : ReqBody) (env : Env)
    (job_id : String) (store : List (String × Job)) :
    (postJobs apiKey provided v0Key req env job_id store).snapshots = [] ∨
    (∃ msg, (postJobs apiKey provided v0Key req env job_id store).snapshots =
      [initialJob req job_id, runningJob (initialJob req job_id),
       errRecord (runningJob (initialJob req job_id)) msg]) ∨
    (∃ chat u hU cU, env.siteResp = .ok chat ∧ extractSiteUrl chat = some u ∧
      (postJobs apiKey provided v0Key req env job_id store).snapshots =
      [initialJob req job_id, runningJob (initialJob req job_id),
       doneRecord (runningJob (initialJob req job_id))
         (extractChatId chat (jsTrim (req.chat_id.getD ""))) u hU cU]) := by
  rcases hA : requireApiKey apiKey provided with _ | code
  · cases hV : (truthy req.row_id && truthy req.prompt && truthy req.callback_url) with
    | false =>
      left; rw [postJobs_invalid apiKey provided v0Key req env job_id store hA hV]
    | true =>
      by_cases hK : v0Key = ""
      · subst hK; left; rw [postJobs_noV0 apiKey provided req env job_id store hA hV]
      · rw [postJobs_accepted apiKey provided v0Key req env job_id store hA hV hK]
        rcases runJob_cases req job_id env (initialJob req job_id) with
          ⟨msg, _, hr⟩ | ⟨hU, cU, msg, _, _, hr⟩ | ⟨hU, cU, chat, _, hs, hu, hr⟩ |
          ⟨hU, cU, chat, u, _, hs, hu, hr⟩
        · exact Or.inr (Or.inl ⟨msg, by rw [hr]⟩)
        · exact Or.inr (Or.inl ⟨msg, by rw [hr]⟩)
        · exact Or.inr (Or.inl ⟨"v0 did not return a demo/webUrl/url", by rw [hr]⟩)
        · exact Or.inr (Or.inr ⟨chat, u, hU, cU, hs, hu, by rw [hr]⟩)
  · left; rw [postJobs_rejected apiKey provided v0Key req env job_id store code hA]

/-- Directed form of the image-failure branch of `runJob`. -/
theorem runJob_imgError (req : ReqBody) (job_id : String) (env : Env) (j0 : Job)
    (msg : String) (h : (imgStep req env).1 = .error msg) :
    runJob req job_id env j0 =
      ([runningJob j0, errRecord (runningJob j0) msg],
       (imgStep req env).2 ++
         [.callback (req.callback_url.getD "")
            (errPayload (runningJob j0) (req.row_id.getD "") job_id msg)
            env.callbackOk]) := by
  unfold runJob; rw [h]

/-- Directed form of the site-call-failure branch of `runJob`. -/
theorem runJob_siteError (req : ReqBody) (job_id : String) (env : Env) (j0 : Job)
    (hU cU msg : String) (h : (imgStep req env).1 = .ok (hU, cU))
    (hs : env.siteResp = .error msg) :
    runJob req job_id env j0 =
      ([runningJob j0, errRecord (runningJob j0) msg],
       (imgStep req env).2 ++
         [siteCall req hU cU,
          .callback (req.callback_url.getD "")
            (errPayload (runningJob j0) (req.row_id.getD "") job_id msg)
            env.callbackOk]) := by
  unfold runJob; rw [h, hs]

/-- Directed form of the no-extractable-URL branch of `runJob`. -/
theorem runJob_noUrl (req : ReqBody) (job_id : String) (env : Env) (j0 : Job)
    (hU cU : String) (chat : Option ChatResponse) (h : (imgStep req env).1 = .ok (hU, cU))
    (hs : env.siteResp = .ok chat) (hu : extractSiteUrl chat = none) :
    runJob req job_id env j0 =
      ([runningJob j0, errRecord (runningJob j0) "v0 did not return a demo/webUrl/url"],
       (imgStep req env).2 ++
         [siteCall req hU cU,
          .callback (req.callback_url.getD "")
            (errPayload (runningJob j0) (req.row_id.getD "") job_id
              "v0 did not return a demo/webUrl/url")
            env.callbackOk]) := by
  unfold runJob; rw [h, hs]; simp only []; rw [hu]

/-- Directed form of the success branch of `runJob`. -/
theorem runJob_done (req : ReqBody) (job_id : String) (env : Env) (j0 : Job)
    (hU cU u : String) (chat : Option ChatResponse) (h : (imgStep req env).1 = .ok (hU, cU))
    (hs : env.siteResp = .ok chat) (hu : extractSiteUrl chat = some u) :
    runJob req job_id env j0 =
      ([runningJob j0,
        doneRecord (runningJob j0)
          (extractChatId chat (jsTrim (req.chat_id.getD ""))) u hU cU],
       (imgStep req env).2 ++
         [siteCall req hU cU,
          .callback (req.callback_url.getD "")
            (donePayload (req.row_id.getD "") job_id
              (extractChatId chat (jsTrim (req.chat_id.getD ""))) u hU cU)
            env.callbackOk]) := by
  unfold runJob; rw [h, hs]; simp only []; rw [hu]

/-- A predicate false on every `genText` counts zero over mapped prompts. -/
theorem countP_map_genText_eq_zero (p : ExtCall → Bool)
    (hp : ∀ s, p (ExtCall.genText s) = false) (ps : List String) :
    (ps.map ExtCall.genText).countP p = 0 := by
  induction ps with
  | nil => rfl
  | cons a l ih => simp [List.countP_cons, hp, ih]

/-- A predicate false on every `genText` counts zero over the image-step calls. -/
theorem imgStep_countP_zero (req : ReqBody) (env : Env) (p : ExtCall → Bool)
    (hp : ∀ s, p (ExtCall.genText s) = false) :
    (imgStep req env).2.countP p = 0 := by
  obtain ⟨ps, hps⟩ := generateImages_calls_shape env (req.site_name.getD "")
    (req.business_type.getD "") (req.location.getD "")
  unfold imgStep
  rw [hps]
  exact countP_map_genText_eq_zero p hp ps

/-- The site call is a site call whichever branch it takes. -/
theorem siteCall_isSiteCall (req : ReqBody) (hU cU : String) :
    ExtCall.isSiteCall (siteCall req hU cU) = true := by
  unfold siteCall; split <;> rfl

/-- The site call is never a callback. -/
theorem siteCall_not_callback (req : ReqBody) (hU cU : String) :
    ExtCall.isCallback (siteCall req hU cU) = false := by
  unfold siteCall; split <;> rfl

/-- The site call with a non-blank trimmed chat_id is the edit call. -/
theorem siteCall_of_trim_ne (req : ReqBody) (hU cU : String)
    (h : jsTrim (req.chat_id.getD "") ≠ "") :
    siteCall req hU cU =
      .sendMessage (jsTrim (req.chat_id.getD ""))
        (finalPrompt (req.prompt.getD "") hU cU) := by
  simp [siteCall, h]

/-- The site call with a blank trimmed chat_id is the create call. -/
theorem siteCall_of_trim_eq (req : ReqBody) (hU cU : String)
    (h : jsTrim (req.chat_id.getD "") = "") :
    siteCall req hU cU = .create (finalPrompt (req.prompt.getD "") hU cU) := by
  simp [siteCall, h]

/-! ### Claim theorems -/

/-- **C1**: every job-record snapshot in the store has status among
{queued, running, done, error}; the only transitions the orchestrator performs are
queued→running and running→{done, error}; and once a record is done or error it is
never mutated again. -/
theorem job_status_state_machine (apiKey provided v0Key : String) (req : ReqBody)
    (env : Env) (job_id : String) (store : List (String × Job)) :
    (∀ j ∈ (postJobs apiKey provided v0Key req env job_id store).snapshots,
      j.status = .queued ∨ j.status = .running ∨ j.status = .done ∨
        j.status = .error) ∧
    (postJobs apiKey provided v0Key req env job_id store).snapshots.Chain'
      okTransition ∧
    (postJobs apiKey provided v0Key req env job_id store).snapshots.Pairwise
      (fun a b => a.terminal → b = a) := by
  rcases snapshots_cases apiKey provided v0Key req env job_id store with
    h | ⟨msg, h⟩ | ⟨chat, u, hU, cU, _, _, h⟩ <;>
  rw [h] <;>
  simp [initialJob, runningJob, errRecord, doneRecord, okTransition, Job.terminal,
    List.chain'_cons, List.pairwise_cons]

/-- Witness for C1: the transition chain at a concrete successful run. -/
theorem job_status_state_machine_witness :
    (postJobs "k" "k" "v" sampleReq envAllOk "j1" []).snapshots.Chain' okTransition :=
  (job_status_state_machine "k" "k" "v" sampleReq envAllOk "j1" []).2.1

/-- **C2**: at every observation point, `site_url` is non-null iff the status is
`done`, and `error` is non-null iff the status is `error`. -/
theorem site_url_error_iff (apiKey provided v0Key : String) (req : ReqBody) (env : Env)
    (job_id : String) (store : List (String × Job)) :
    ∀ j ∈ (postJobs apiKey provided v0Key req env job_id store).snapshots,
      (j.site_url ≠ none ↔ j.status = .done) ∧
      (j.error ≠ none ↔ j.status = .error) := by
  rcases snapshots_cases apiKey provided v0Key req env job_id store with
    h | ⟨msg, h⟩ | ⟨chat, u, hU, cU, _, _, h⟩ <;>
  rw [h] <;>
  simp [initialJob, runningJob, errRecord, doneRecord]

/-- A concrete terminal record of a successful run, for exercising C2. -/
def sampleDone : Job :=
  { status := .done
    job_id := "j1"
    row_id := "r1"
    chat_id := "c1"
    site_url := some "https://demo.test/c1"
    image_urls := some ("data:image/png;base64,QQ==", "data:image/png;base64,QQ==")
    error := none }

/-- Witness for C2 at the concrete done record of a successful run. -/
theorem site_url_error_iff_witness :
    (sampleDone.site_url ≠ none ↔ sampleDone.status = .done) ∧
    (sampleDone.error ≠ none ↔ sampleDone.status = .error) :=
  site_url_error_iff "k" "k" "v" sampleReq envAllOk "j1" [] sampleDone (by decide)

/-- **C5**: if the image step fails, the site-generation collaborator
(`chats.create`/`chats.sendMessage`) is never invoked for that job. -/
theorem image_fail_no_site_call (req : ReqBody) (job_id : String) (env : Env)
    (j0 : Job) (msg : String) (h : (imgStep req env).1 = .error msg) :
    (runJob req job_id env j0).2.countP ExtCall.isSiteCall = 0 := by
  rw [runJob_imgError req job_id env j0 msg h]
  simp [List.countP_append, List.countP_cons, ExtCall.isSiteCall,
    imgStep_countP_zero req env ExtCall.isSiteCall (fun _ => rfl)]

/-- Witness for C5: with a `generateText` result containing no image file, the image
step fails and the trace holds no site call. -/
theorem image_fail_no_site_call_witness :
    (imgStep sampleReq envNoImage).1 = .error "No image returned in result.files" ∧
    (runJob sampleReq "j1" envNoImage emptyJob).2.countP ExtCall.isSiteCall = 0 :=
  ⟨rfl, image_fail_no_site_call sampleReq "j1" envNoImage emptyJob _ rfl⟩

/-- A valid creation request with its `callback_url` missing. -/
def reqNoCallback : ReqBody :=
  { sampleReq with callback_url := none }

/-- **C8**: a validly-authenticated `POST /jobs` missing `row_id`, `prompt` or
`callback_url` is answered 400, and no job record is created: the store (and the
snapshot list) is unchanged, and no external call is made. -/
theorem missing_field_400 (apiKey provided v0Key : String) (req : ReqBody) (env : Env)
    (job_id : String) (store : List (String × Job))
    (hA : requireApiKey apiKey provided = none)
    (hM : req.row_id = none ∨ req.prompt = none ∨ req.callback_url = none) :
    (postJobs apiKey provided v0Key req env job_id store).code = 400 ∧
    (postJobs apiKey provided v0Key req env job_id store).store = store ∧
    (postJobs apiKey provided v0Key req env job_id store).snapshots = [] ∧
    (postJobs apiKey provided v0Key req env job_id store).calls = [] := by
  have hV : (truthy req.row_id && truthy req.prompt && truthy req.callback_url)
      = false := by
    rcases hM with h | h | h <;> simp [truthy, h]
  rw [postJobs_invalid apiKey provided v0Key req env job_id store hA hV]
  exact ⟨rfl, rfl, rfl, rfl⟩

/-- Witness for C8: the spec's scenario, a request missing `callback_url`. -/
theorem missing_field_400_witness :
    (postJobs "k" "k" "v" reqNoCallback envAllOk "j1" []).code = 400 ∧
    (postJobs "k" "k" "v" reqNoCallback envAllOk "j1" []).store = [] ∧
    (postJobs "k" "k" "v" reqNoCallback envAllOk "j1" []).snapshots = [] ∧
    (postJobs "k" "k" "v" reqNoCallback envAllOk "j1" []).calls = [] :=
  missing_field_400 "k" "k" "v" reqNoCallback envAllOk "j1" [] rfl
    (Or.inr (Or.inr rfl))

/-- A `genOneNanoBananaImage` call whose `generateText` result holds no image file
throws exactly "No image returned in result.files". -/
theorem genOne_noImage (k p : String) (g : Except String GenTextResult)
    (r : GenTextResult) (hk : k ≠ "") (hg : g = .ok r)
    (hf : (r.files.getD []).find? isImageFile = none) :
    genOneNanoBananaImage k p g =
      (.error "No image returned in result.files", [.genText p]) := by
  unfold genOneNanoBananaImage
  rw [hg]
  simp [hk, hf]

/-- The image step fails with the no-image message when the first `generateText`
call returns no image file. -/
theorem imgStep_noImage (req : ReqBody) (env : Env) (r : GenTextResult)
    (hk : env.gatewayKey ≠ "") (hg : env.heroGen = .ok r)
    (hf : (r.files.getD []).find? isImageFile = none) :
    (imgStep req env).1 = .error "No image returned in result.files" := by
  have h := genOne_noImage env.gatewayKey
    (heroPrompt (req.site_name.getD "") (req.business_type.getD "")
      (req.location.getD ""))
    env.heroGen r hk hg hf
  unfold imgStep generateImages
  rw [h]

/-- **C3 counterexample**: the claim as stated fails on the code. At a concrete job
whose image step fails because `generateText` returned no image file, the record
reaches `error` with the raw exception text, and that stored message does not
contain the tag "image step" (nor does any tagging exist in the catch block,
server.js:301-305, which stores `String(e?.message || e)` unchanged). -/
theorem error_message_untagged_counterexample :
    ((postJobs "k" "k" "v" sampleReq envNoImage "j1" []).snapshots.getLastD
      emptyJob).status = .error ∧
    ((postJobs "k" "k" "v" sampleReq envNoImage "j1" []).snapshots.getLastD
      emptyJob).error = some "No image returned in result.files" ∧
    ¬ ("image step".data <:+: "No image returned in result.files".data) := by
  exact ⟨by decide, by decide, by decide⟩

/-- **C3 (amended)**: the stored error message is the underlying exception message,
with no step tag added: an image-step failure whose `generateText` call returned no
image file stores exactly "No image returned in result.files", and a site step whose
response contains no extractable URL stores exactly
"v0 did not return a demo/webUrl/url"; the two built-in messages differ, which is the
only sense in which the message identifies the failing step. -/
theorem error_message_identifies_step (req : ReqBody) (job_id : String) (env : Env)
    (j0 : Job) :
    (∀ r : GenTextResult, env.gatewayKey ≠ "" → env.heroGen = .ok r →
      (r.files.getD []).find? isImageFile = none →
      ((runJob req job_id env j0).1.getLastD j0).status = .error ∧
      ((runJob req job_id env j0).1.getLastD j0).error =
        some "No image returned in result.files") ∧
    (∀ hU cU chat, (imgStep req env).1 = .ok (hU, cU) → env.siteResp = .ok chat →
      extractSiteUrl chat = none →
      ((runJob req job_id env j0).1.getLastD j0).status = .error ∧
      ((runJob req job_id env j0).1.getLastD j0).error =
        some "v0 did not return a demo/webUrl/url") ∧
    ("No image returned in result.files" : String) ≠
      "v0 did not return a demo/webUrl/url" := by
  refine ⟨?_, ?_, by decide⟩
  · intro r hk hg hf
    rw [runJob_imgError req job_id env j0 _ (imgStep_noImage req env r hk hg hf)]
    exact ⟨rfl, rfl⟩
  · intro hU cU chat h hs hu
    rw [runJob_noUrl req job_id env j0 hU cU chat h hs hu]
    exact ⟨rfl, rfl⟩

/-- Witness for the amended C3: both failure shapes at concrete oracles. -/
theorem error_message_identifies_step_witness :
    (((runJob sampleReq "j1" envNoImage emptyJob).1.getLastD emptyJob).error =
      some "No image returned in result.files") ∧
    (((runJob sampleReq "j1" envNoUrl emptyJob).1.getLastD emptyJob).error =
      some "v0 did not return a demo/webUrl/url") :=
  ⟨((error_message_identifies_step sampleReq "j1" envNoImage emptyJob).1
      ⟨some []⟩ (by decide) rfl rfl).2,
   ((error_message_identifies_step sampleReq "j1" envNoUrl emptyJob).2.1
      "data:image/png;base64,QQ==" "data:image/png;base64,QQ=="
      (some { okChat with demo := none }) rfl rfl rfl).2⟩

theorem jsOr_pos (a b : Option String) (h : truthy a = true) : jsOr a b = a := by
  simp [jsOr, h]

theorem jsOr_neg (a b : Option String) (h : truthy a = false) : jsOr a b = b := by
  simp [jsOr, h]

/-- A v0 response carrying only the secondary id field (`chatId`). -/
def chatSecondaryId : ChatResponse :=
  { id := none
    chatId := some "c2"
    chat_id := none
    demo := some "https://demo.test/c2"
    webUrl := none
    url := none
    outputDemo := none }

/-- **C4 counterexample**: the claim as stated fails on the background orchestrator.
With the primary `id` field absent and the secondary `chatId` field set to "c2",
the orchestrator's extraction (server.js:279, `chat?.id || incomingChatId || ""`)
returns the caller-supplied chat_id "orig" instead of "c2": the secondary and
tertiary id fields are not consulted there. Only the single-shot variant
(part_000:69-70) implements the three-field chain. -/
theorem chat_id_fallback_counterexample :
    extractChatId (some chatSecondaryId) "orig" = "orig" ∧
    returnedChatIdV0 (some chatSecondaryId) (some "orig") = some "c2" ∧
    extractChatId (some chatSecondaryId) "orig" ≠
      (returnedChatIdV0 (some chatSecondaryId) (some "orig")).getD "" := by
  exact ⟨by decide, by decide, by decide⟩

/-- **C4 (amended)**: the background orchestrator extracts the returned chat id by
trying the primary `id` field only and otherwise falling back to the caller-supplied
(trimmed) chat_id; the secondary (`chatId`) and tertiary (`chat_id`) fields, and the
full primary/secondary/tertiary/caller-supplied priority chain, belong to the
single-shot variant (src/unnamed/part_000). -/
theorem chat_id_fallback_order (chat : Option ChatResponse) (inc : String)
    (orig : Option String) :
    (∀ s, chat.bind ChatResponse.id = some s → s ≠ "" →
      extractChatId chat inc = s) ∧
    (truthy (chat.bind ChatResponse.id) = false → extractChatId chat inc = inc) ∧
    (truthy (chat.bind ChatResponse.id) = false →
      truthy (chat.bind ChatResponse.chatId) = true →
      returnedChatIdV0 chat orig = chat.bind ChatResponse.chatId) ∧
    (truthy (chat.bind ChatResponse.id) = false →
      truthy (chat.bind ChatResponse.chatId) = false →
      truthy (chat.bind ChatResponse.chat_id) = true →
      returnedChatIdV0 chat orig = chat.bind ChatResponse.chat_id) ∧
    (truthy (chat.bind ChatResponse.id) = false →
      truthy (chat.bind ChatResponse.chatId) = false →
      truthy (chat.bind ChatResponse.chat_id) = false →
      truthy orig = true → returnedChatIdV0 chat orig = orig) := by
  refine ⟨?_, ?_, ?_, ?_, ?_⟩
  · intro s h hs
    have ht : truthy (some s) = true := by simp [truthy, hs]
    unfold extractChatId
    rw [h, jsOr_pos _ _ ht, jsOr_pos _ _ ht]
    rfl
  · intro hF
    unfold extractChatId
    rw [jsOr_neg _ _ hF]
    by_cases hi : inc = ""
    · subst hi; rfl
    · rw [jsOr_pos _ _ (by simp [truthy, hi])]; rfl
  · intro hF hT
    unfold returnedChatIdV0
    rw [jsOr_neg _ _ hF, jsOr_pos _ _ hT, jsOr_pos _ _ hT, jsOr_pos _ _ hT]
  · intro hF hF2 hT
    unfold returnedChatIdV0
    rw [jsOr_neg _ _ hF, jsOr_neg _ _ hF2, jsOr_pos _ _ hT, jsOr_pos _ _ hT]
  · intro hF hF2 hF3 hT
    unfold returnedChatIdV0
    rw [jsOr_neg _ _ hF, jsOr_neg _ _ hF2, jsOr_neg _ _ hF3, jsOr_pos _ _ hT]

/-- Witness for the amended C4: the primary field wins in the orchestrator's
extraction, and the secondary field wins in the part_000 chain. -/
theorem chat_id_fallback_order_witness :
    extractChatId (some okChat) "orig" = "c1" ∧
    returnedChatIdV0 (some chatSecondaryId) (some "orig") =
      (some chatSecondaryId).bind ChatResponse.chatId :=
  ⟨(chat_id_fallback_order (some okChat) "orig" (some "orig")).1 "c1" rfl
      (by decide),
   (chat_id_fallback_order (some chatSecondaryId) "orig" (some "orig")).2.2.1
      (by decide) (by decide)⟩

/-- When the image step succeeds, the trace is the image calls followed by exactly
the single site call and one callback. -/
theorem runJob_calls_of_imgOk (req : ReqBody) (job_id : String) (env : Env) (j0 : Job)
    (hU cU : String) (h : (imgStep req env).1 = .ok (hU, cU)) :
    ∃ p : CallbackPayload,
      (runJob req job_id env j0).2 =
        (imgStep req env).2 ++
          [siteCall req hU cU,
           .callback (req.callback_url.getD "") p env.callbackOk] := by
  rcases hsite : env.siteResp with msg | chat
  · exact ⟨_, by rw [runJob_siteError req job_id env j0 hU cU msg h hsite]⟩
  · rcases hurl : extractSiteUrl chat with _ | u
    · exact ⟨_, by rw [runJob_noUrl req job_id env j0 hU cU chat h hsite hurl]⟩
    · exact ⟨_, by rw [runJob_done req job_id env j0 hU cU u chat h hsite hurl]⟩

/-- A creation request supplying a whitespace-only, hence non-empty, chat_id. -/
def reqWhitespaceChat : ReqBody :=
  { sampleReq with chat_id := some " " }

/-- **C7 counterexample**: the claim as stated fails on the code. The caller supplies
the non-empty chat_id " ", yet the orchestrator trims it to "" and issues a
`chats.create` call and no `chats.sendMessage` call. -/
theorem edit_iff_chat_id_counterexample :
    reqWhitespaceChat.chat_id = some " " ∧ (some " " : Option String) ≠ some "" ∧
    (postJobs "k" "k" "v" reqWhitespaceChat envAllOk "j1" []).calls.countP
      ExtCall.isSend = 0 ∧
    (postJobs "k" "k" "v" reqWhitespaceChat envAllOk "j1" []).calls.countP
      ExtCall.isCreate = 1 := by
  exact ⟨by decide, by decide, by decide, by decide⟩

/-- **C7 (amended)**: for every job that reaches the site step, exactly one site call
is made; it is the edit call (`chats.sendMessage` scoped to the trimmed chat_id) iff
the caller-supplied chat_id is non-empty after trimming whitespace, and the create
call (`chats.create`) iff it is empty or blank. -/
theorem edit_iff_trimmed_chat_id (req : ReqBody) (job_id : String) (env : Env)
    (j0 : Job) (hU cU : String) (h : (imgStep req env).1 = .ok (hU, cU)) :
    ((runJob req job_id env j0).2.countP ExtCall.isSiteCall = 1) ∧
    (jsTrim (req.chat_id.getD "") ≠ "" →
      ExtCall.sendMessage (jsTrim (req.chat_id.getD ""))
          (finalPrompt (req.prompt.getD "") hU cU) ∈ (runJob req job_id env j0).2 ∧
      (runJob req job_id env j0).2.countP ExtCall.isCreate = 0) ∧
    (jsTrim (req.chat_id.getD "") = "" →
      ExtCall.create (finalPrompt (req.prompt.getD "") hU cU) ∈
        (runJob req job_id env j0).2 ∧
      (runJob req job_id env j0).2.countP ExtCall.isSend = 0) := by
  obtain ⟨p, hc⟩ := runJob_calls_of_imgOk req job_id env j0 hU cU h
  rw [hc]
  refine ⟨?_, ?_, ?_⟩
  · simp [List.countP_append, List.countP_cons, siteCall_isSiteCall,
      imgStep_countP_zero req env ExtCall.isSiteCall (fun _ => rfl)]
  · intro ht
    rw [siteCall_of_trim_ne req hU cU ht]
    refine ⟨by simp, ?_⟩
    simp [List.countP_append, List.countP_cons, ExtCall.isCreate,
      imgStep_countP_zero req env ExtCall.isCreate (fun _ => rfl)]
  · intro ht
    rw [siteCall_of_trim_eq req hU cU ht]
    refine ⟨by simp, ?_⟩
    simp [List.countP_append, List.countP_cons, ExtCall.isSend,
      imgStep_countP_zero req env ExtCall.isSend (fun _ => rfl)]

/-- A creation request supplying the chat_id "c9". -/
def reqEditChat : ReqBody :=
  { sampleReq with chat_id := some "c9" }

/-- Witness for the amended C7: with chat_id "c9" the edit call is issued. -/
theorem edit_iff_trimmed_chat_id_witness :
    jsTrim (reqEditChat.chat_id.getD "") ≠ "" ∧
    ExtCall.sendMessage (jsTrim (reqEditChat.chat_id.getD ""))
      (finalPrompt (reqEditChat.prompt.getD "") "data:image/png;base64,QQ=="
        "data:image/png;base64,QQ==") ∈
      (runJob reqEditChat "j1" envAllOk emptyJob).2 :=
  ⟨by decide,
   ((edit_iff_trimmed_chat_id reqEditChat "j1" envAllOk emptyJob
      "data:image/png;base64,QQ==" "data:image/png;base64,QQ==" rfl).2.1
      (by decide)).1⟩

/-- **C9**: for a job reaching the site step after a successful image step producing
the hero URL `hU` and contact URL `cU`, every message sent on the site call equals
the caller's original prompt concatenated (with a blank line) with the instruction
block; exactly one site call is made; the block contains the exact hero and contact
URLs, and its closing literal is exactly the text forbidding placeholders and
additional image generation. -/
theorem site_prompt_construction (req : ReqBody) (job_id : String) (env : Env)
    (j0 : Job) (hU cU : String) (h : (imgStep req env).1 = .ok (hU, cU)) :
    ((runJob req job_id env j0).2.countP ExtCall.isSiteCall = 1) ∧
    (∀ m, ExtCall.create m ∈ (runJob req job_id env j0).2 →
      m = req.prompt.getD "" ++ "\n\n" ++ imageInstruction hU cU) ∧
    (∀ cid m, ExtCall.sendMessage cid m ∈ (runJob req job_id env j0).2 →
      m = req.prompt.getD "" ++ "\n\n" ++ imageInstruction hU cU) ∧
    hU.data <:+: (imageInstruction hU cU).data ∧
    cU.data <:+: (imageInstruction hU cU).data ∧
    imageInstrEnd.data <:+: (imageInstruction hU cU).data ∧
    imageInstrEnd = "\nDo not use placeholders. Do not generate additional images.\n" := by
  obtain ⟨p, hc⟩ := runJob_calls_of_imgOk req job_id env j0 hU cU h
  obtain ⟨ps, hps⟩ := generateImages_calls_shape env (req.site_name.getD "")
    (req.business_type.getD "") (req.location.getD "")
  have hps' : (imgStep req env).2 = ps.map ExtCall.genText := hps
  refine ⟨?_, ?_, ?_, ?_, ?_, ?_, rfl⟩
  · rw [hc]
    simp [List.countP_append, List.countP_cons, siteCall_isSiteCall,
      imgStep_countP_zero req env ExtCall.isSiteCall (fun _ => rfl)]
  · intro m hm
    rw [hc, hps'] at hm
    simp [List.mem_append] at hm
    by_cases ht : jsTrim (req.chat_id.getD "") = ""
    · rw [siteCall_of_trim_eq req hU cU ht] at hm
      simp at hm
      exact hm
    · rw [siteCall_of_trim_ne req hU cU ht] at hm
      simp at hm
  · intro cid m hm
    rw [hc, hps'] at hm
    simp [List.mem_append] at hm
    by_cases ht : jsTrim (req.chat_id.getD "") = ""
    · rw [siteCall_of_trim_eq req hU cU ht] at hm
      simp at hm
    · rw [siteCall_of_trim_ne req hU cU ht] at hm
      simp at hm
      exact hm.2
  · exact ⟨imageInstrPre.data, (imageInstrMid ++ cU ++ imageInstrEnd).data,
      by simp [imageInstruction, data_append, List.append_assoc]⟩
  · exact ⟨(imageInstrPre ++ hU ++ imageInstrMid).data, imageInstrEnd.data,
      by simp [imageInstruction, data_append, List.append_assoc]⟩
  · exact ⟨(imageInstrPre ++ hU ++ imageInstrMid ++ cU).data, ([] : List Char),
      by simp [imageInstruction, data_append, List.append_assoc]⟩

/-- Witness for C9: the hero URL occurs verbatim in the instruction block of a
concrete successful run. -/
theorem site_prompt_construction_witness :
    ("data:image/png;base64,QQ==" : String).data <:+:
      (imageInstruction "data:image/png;base64,QQ=="
        "data:image/png;base64,QQ==").data :=
  (site_prompt_construction sampleReq "j1" envAllOk emptyJob
    "data:image/png;base64,QQ==" "data:image/png;base64,QQ==" rfl).2.2.2.1

/-- The image step ignores the callback-delivery outcome. -/
theorem imgStep_callbackOk (req : ReqBody) (env : Env) (b : Bool) :
    imgStep req { env with callbackOk := b } = imgStep req env := rfl

@[simp] theorem stripOk_genText (p : String) : stripOk (.genText p) = .genText p := rfl

@[simp] theorem stripOk_sendMessage (a m : String) :
    stripOk (.sendMessage a m) = .sendMessage a m := rfl

@[simp] theorem stripOk_create (m : String) : stripOk (.create m) = .create m := rfl

@[simp] theorem stripOk_callback (u : String) (pl : CallbackPayload) (d : Bool) :
    stripOk (.callback u pl d) = .callback u pl true := rfl

/-- Neither the job snapshots nor the calls (up to the recorded delivery outcome)
depend on whether the callback delivery succeeds. -/
theorem runJob_callbackOk (req : ReqBody) (job_id : String) (env : Env) (j0 : Job)
    (b : Bool) :
    (runJob req job_id { env with callbackOk := b } j0).1 =
      (runJob req job_id env j0).1 ∧
    (runJob req job_id { env with callbackOk := b } j0).2.map stripOk =
      (runJob req job_id env j0).2.map stripOk := by
  obtain ⟨gk, hg, cg, sr, co⟩ := env
  dsimp only
  rcases himg : (imgStep req ⟨gk, hg, cg, sr, co⟩).1 with msg | ⟨hU, cU⟩
  · have h' : (imgStep req ⟨gk, hg, cg, sr, b⟩).1 = .error msg := himg
    rw [runJob_imgError req job_id ⟨gk, hg, cg, sr, co⟩ j0 msg himg,
        runJob_imgError req job_id ⟨gk, hg, cg, sr, b⟩ j0 msg h',
        show imgStep req ⟨gk, hg, cg, sr, b⟩ = imgStep req ⟨gk, hg, cg, sr, co⟩
          from rfl]
    exact ⟨rfl, by simp⟩
  · rcases sr with msgS | chat
    · have h' : (imgStep req ⟨gk, hg, cg, .error msgS, b⟩).1 = .ok (hU, cU) := himg
      rw [runJob_siteError req job_id ⟨gk, hg, cg, .error msgS, co⟩ j0 hU cU msgS
            himg rfl,
          runJob_siteError req job_id ⟨gk, hg, cg, .error msgS, b⟩ j0 hU cU msgS
            h' rfl,
          show imgStep req ⟨gk, hg, cg, .error msgS, b⟩ =
            imgStep req ⟨gk, hg, cg, .error msgS, co⟩ from rfl]
      exact ⟨rfl, by simp⟩
    · have h' : (imgStep req ⟨gk, hg, cg, .ok chat, b⟩).1 = .ok (hU, cU) := himg
      rcases hurl : extractSiteUrl chat with _ | u
      · rw [runJob_noUrl req job_id ⟨gk, hg, cg, .ok chat, co⟩ j0 hU cU chat himg
              rfl hurl,
            runJob_noUrl req job_id ⟨gk, hg, cg, .ok chat, b⟩ j0 hU cU chat h'
              rfl hurl,
            show imgStep req ⟨gk, hg, cg, .ok chat, b⟩ =
              imgStep req ⟨gk, hg, cg, .ok chat, co⟩ from rfl]
        exact ⟨rfl, by simp⟩
      · rw [runJob_done req job_id ⟨gk, hg, cg, .ok chat, co⟩ j0 hU cU u chat himg
              rfl hurl,
            runJob_done req job_id ⟨gk, hg, cg, .ok chat, b⟩ j0 hU cU u chat h'
              rfl hurl,
            show imgStep req ⟨gk, hg, cg, .ok chat, b⟩ =
              imgStep req ⟨gk, hg, cg, .ok chat, co⟩ from rfl]
        exact ⟨rfl, by simp⟩

/-- Every background task makes exactly one callback invocation. -/
theorem runJob_countP_callback (req : ReqBody) (job_id : String) (env : Env)
    (j0 : Job) :
    (runJob req job_id env j0).2.countP ExtCall.isCallback = 1 := by
  rcases runJob_cases req job_id env j0 with
    ⟨msg, _, hr⟩ | ⟨hU, cU, msg, _, _, hr⟩ | ⟨hU, cU, chat, _, _, _, hr⟩ |
    ⟨hU, cU, chat, u, _, _, _, hr⟩ <;>
  rw [hr] <;>
  simp [List.countP_append, List.countP_cons, siteCall_not_callback,
    imgStep_countP_zero req env ExtCall.isCallback (fun _ => rfl)]

/-- **C6**: for every accepted job, the callback notifier is invoked exactly once,
and the delivery outcome (success or failure) influences neither the job's stored
snapshots, nor the final store, nor the call sequence apart from the recorded
outcome itself — in particular a failed delivery is never retried. -/
theorem callback_once_and_isolated (apiKey provided v0Key : String) (req : ReqBody)
    (env : Env) (job_id : String) (store : List (String × Job)) (b : Bool)
    (hA : requireApiKey apiKey provided = none)
    (hV : (truthy req.row_id && truthy req.prompt && truthy req.callback_url) = true)
    (hK : v0Key ≠ "") :
    (postJobs apiKey provided v0Key req env job_id store).calls.countP
      ExtCall.isCallback = 1 ∧
    (postJobs apiKey provided v0Key req { env with callbackOk := b } job_id
        store).snapshots =
      (postJobs apiKey provided v0Key req env job_id store).snapshots ∧
    (postJobs apiKey provided v0Key req { env with callbackOk := b } job_id
        store).store =
      (postJobs apiKey provided v0Key req env job_id store).store ∧
    (postJobs apiKey provided v0Key req { env with callbackOk := b } job_id
        store).calls.map stripOk =
      (postJobs apiKey provided v0Key req env job_id store).calls.map stripOk := by
  rw [postJobs_accepted apiKey provided v0Key req env job_id store hA hV hK,
      postJobs_accepted apiKey provided v0Key req { env with callbackOk := b } job_id
        store hA hV hK]
  obtain ⟨h1, h2⟩ := runJob_callbackOk req job_id env (initialJob req job_id) b
  exact ⟨runJob_countP_callback req job_id env (initialJob req job_id),
    by rw [show (runJob req job_id { env with callbackOk := b }
        (initialJob req job_id)).1 = _ from h1],
    by rw [show (runJob req job_id { env with callbackOk := b }
        (initialJob req job_id)).1 = _ from h1],
    h2⟩

/-- Witness for C6: at a concrete successful run, one callback, and the snapshots
are unchanged when the delivery fails. -/
theorem callback_once_and_isolated_witness :
    (postJobs "k" "k" "v" sampleReq envAllOk "j1" []).calls.countP
      ExtCall.isCallback = 1 ∧
    (postJobs "k" "k" "v" sampleReq { envAllOk with callbackOk := false } "j1"
        []).snapshots =
      (postJobs "k" "k" "v" sampleReq envAllOk "j1" []).snapshots :=
  ⟨(callback_once_and_isolated "k" "k" "v" sampleReq envAllOk "j1" [] false rfl rfl
      (by decide)).1,
   (callback_once_and_isolated "k" "k" "v" sampleReq envAllOk "j1" [] false rfl rfl
      (by decide)).2.1⟩

/-- **C10**: a job that ends in error stores, and reports in its error callback,
exactly the caller-supplied chat_id from the creation request ("" when none was
supplied); a collaborator-returned id is never written on the error path. -/
theorem error_path_chat_id (apiKey provided v0Key : String) (req : ReqBody)
    (env : Env) (job_id : String) (store : List (String × Job))
    (hA : requireApiKey apiKey provided = none)
    (hV : (truthy req.row_id && truthy req.prompt && truthy req.callback_url) = true)
    (hK : v0Key ≠ "")
    (hE : ((postJobs apiKey provided v0Key req env job_id store).snapshots.getLastD
      emptyJob).status = .error) :
    (((postJobs apiKey provided v0Key req env job_id store).snapshots.getLastD
        emptyJob).chat_id = req.chat_id.getD "") ∧
    (∀ u p d, ExtCall.callback u p d ∈
        (postJobs apiKey provided v0Key req env job_id store).calls →
      p.chat_id = req.chat_id.getD "" ∧ p.status = .error ∧ p.site_url = none) := by
  rw [postJobs_accepted apiKey provided v0Key req env job_id store hA hV hK] at hE ⊢
  obtain ⟨ps, hps⟩ := generateImages_calls_shape env (req.site_name.getD "")
    (req.business_type.getD "") (req.location.getD "")
  have hps' : (imgStep req env).2 = ps.map ExtCall.genText := hps
  rcases runJob_cases req job_id env (initialJob req job_id) with
    ⟨msg, _, hr⟩ | ⟨hU, cU, msg, _, _, hr⟩ | ⟨hU, cU, chat, _, _, _, hr⟩ |
    ⟨hU, cU, chat, u, _, _, _, hr⟩
  · rw [hr] at hE ⊢
    refine ⟨by simp [errRecord, runningJob, initialJob], ?_⟩
    intro u p d hm
    rw [hps'] at hm
    simp [List.mem_append] at hm
    obtain ⟨h1, h2, h3⟩ := hm
    subst h2
    exact ⟨by simp [errPayload, runningJob, initialJob, jsOrStr_empty], rfl, rfl⟩
  · rw [hr] at hE ⊢
    refine ⟨by simp [errRecord, runningJob, initialJob], ?_⟩
    intro u p d hm
    rw [hps'] at hm
    simp [List.mem_append] at hm
    rcases hm with hm | ⟨h1, h2, h3⟩
    · have hfalse : ExtCall.isCallback (siteCall req hU cU) = true := by
        rw [← hm]; rfl
      rw [siteCall_not_callback] at hfalse
      cases hfalse
    · subst h2
      exact ⟨by simp [errPayload, runningJob, initialJob, jsOrStr_empty], rfl, rfl⟩
  · rw [hr] at hE ⊢
    refine ⟨by simp [errRecord, runningJob, initialJob], ?_⟩
    intro u p d hm
    rw [hps'] at hm
    simp [List.mem_append] at hm
    rcases hm with hm | ⟨h1, h2, h3⟩
    · have hfalse : ExtCall.isCallback (siteCall req hU cU) = true := by
        rw [← hm]; rfl
      rw [siteCall_not_callback] at hfalse
      cases hfalse
    · subst h2
      exact ⟨by simp [errPayload, runningJob, initialJob, jsOrStr_empty], rfl, rfl⟩
  · rw [hr] at hE
    simp [doneRecord, runningJob, initialJob] at hE

/-- Witness for C10: a concrete failed job reports the caller-supplied (empty)
chat_id. -/
theorem error_path_chat_id_witness :
    ((postJobs "k" "k" "v" sampleReq envNoImage "j1" []).snapshots.getLastD
      emptyJob).chat_id = sampleReq.chat_id.getD "" :=
  (error_path_chat_id "k" "k" "v" sampleReq envNoImage "j1" [] rfl rfl (by decide)
    (by decide)).1

end AiSitePipeline
